import Mathlib

/-
Verification of the request-execution engine of tweepy's binder module
(src/tweepy/binder.py): parameter building (`APIMethod.build_parameters`)
and the resilient execution loop (`APIMethod.execute`).

The embedding is shallow: the external collaborators (HTTP transport,
cache store, parser, auth strategy, the rate-limit-message classifier from
tweepy.error) are abstracted as an environment of pure functions, exactly
as the module consumes them.  The stateful loop is modelled as a
fuel-indexed recursive function over an explicit loop state; observable
side effects (cache lookups/stores, authentication, HTTP sends, sleeps)
are recorded in an event trace.  Machine time is modelled as a rational
clock advanced by the slept amounts; `int(time.time())` is the floor of
the clock.
-/

set_option linter.unusedVariables false

namespace Tweepy

/-- Response delivered by the HTTP transport: status code, the three
rate-limit-relevant headers already converted to numbers
(`x-rate-limit-remaining`, `x-rate-limit-reset`, `retry-after`; absent
header = `none`), and the raw body text. -/
structure Resp where
  status_code : Nat
  rem_header : Option Int
  reset_header : Option Int
  retry_after : Option ℚ
  text : String
deriving DecidableEq

/-- Result of one `self.session.request(...)` call: either a response or a
transport-level exception (modelled by its message). -/
inductive SendResult where
  | ok (r : Resp)
  | exc (msg : String)
deriving DecidableEq

/-- An element of a parsed / cached result.  `model api_ref` is a
`tweepy.models.Model` instance with its `_api` back-reference (identified
by the owning api object's identity); `other truthy` is any non-Model
value, carrying only its Python truthiness. -/
inductive Elem where
  | model (api_ref : Option Nat)
  | other (truthy : Bool)
deriving DecidableEq

/-- A parsed result or cached value: either a single object or a Python
list of objects (the two shapes `execute` distinguishes with
`isinstance(cache_result, list)`). -/
inductive Payload where
  | single (e : Elem)
  | plist (es : List Elem)
deriving DecidableEq

/-- Python truthiness of an element; `Model` instances are truthy. -/
def Elem.truthy : Elem → Bool
  | .model _ => true
  | .other b => b

/-- Python truthiness of a payload; a list is truthy iff non-empty. -/
def Payload.truthy : Payload → Bool
  | .single e => e.truthy
  | .plist es => !es.isEmpty

/-- Set the `_api` back-reference of a Model element (`result._api =
self.api`); non-Model values are untouched. -/
def Elem.withApi (apiId : Nat) : Elem → Elem
  | .model _ => .model (some apiId)
  | e => e

/-- Restoration of the owning-api reference done on a cache hit
(binder.py lines 88-95): on a list, fix up each Model element; otherwise
fix up the value itself if it is a Model. -/
def Payload.restoreApi (apiId : Nat) : Payload → Payload
  | .single e => .single (e.withApi apiId)
  | .plist es => .plist (es.map (Elem.withApi apiId))

/-- The two `TweepError`s raised by `build_parameters`. -/
inductive ParamError where
  | tooManyParameters
  | duplicateParameter (k : String)
deriving DecidableEq

/-- The message string carried by the raised `TweepError`. -/
def ParamError.message : ParamError → String
  | .tooManyParameters => "Too many parameters supplied!"
  | .duplicateParameter k => "Multiple values for parameter " ++ k ++ " supplied!"

/-- Membership test of a key in a Python-dict modelled as an ordered
association list (`k in self.session.params`). -/
def dictMember (d : List (String × String)) (k : String) : Bool :=
  d.any (fun p => p.1 == k)

/-- Python dict assignment `d[k] = v`: overwrite in place if the key is
present, else append (insertion order preserved). -/
def dictInsert (d : List (String × String)) (k v : String) : List (String × String) :=
  if dictMember d k then d.map (fun p => if p.1 = k then (k, v) else p)
  else d ++ [(k, v)]

/-- Positional phase of `build_parameters` (binder.py lines 57-63):
iterate `enumerate(args)`, skip `None` arguments, map index `idx` to
`allowed_param[idx]`; an out-of-range index raises
`TweepError('Too many parameters supplied!')`.  Argument values are
modelled already string-coerced (`str(arg)` is the identity here). -/
def buildPositional (allowed : List String) :
    List (Option String) → Nat → List (String × String) →
    Except ParamError (List (String × String))
  | [], _, params => .ok params
  | none :: rest, idx, params => buildPositional allowed rest (idx + 1) params
  | some arg :: rest, idx, params =>
    match allowed[idx]? with
    | some name => buildPositional allowed rest (idx + 1) (dictInsert params name arg)
    | none => .error .tooManyParameters

/-- Keyword phase of `build_parameters` (binder.py lines 65-71): skip
`None` values; a key already present raises
`TweepError(f'Multiple values for parameter {k} supplied!')`; otherwise
insert the string-coerced value. -/
def buildKeyword :
    List (String × Option String) → List (String × String) →
    Except ParamError (List (String × String))
  | [], params => .ok params
  | (_, none) :: rest, params => buildKeyword rest params
  | (k, some arg) :: rest, params =>
    if dictMember params k then .error (.duplicateParameter k)
    else buildKeyword rest (dictInsert params k arg)

/-- `APIMethod.build_parameters(args, kwargs)` (binder.py lines 55-73):
positional phase then keyword phase, starting from an empty
`session.params`.  `kwargs` is the dict's (insertion-ordered) item list. -/
def build_parameters (allowed : List String) (args : List (Option String))
    (kwargs : List (String × Option String)) :
    Except ParamError (List (String × String)) :=
  match buildPositional allowed args 0 [] with
  | .error e => .error e
  | .ok p => buildKeyword kwargs p

/-- Read-only api/method configuration consulted by `execute`:
`api.retry_count`, `api.retry_delay`, `api.retry_errors` (`[]` models a
falsy/absent set), `api.wait_on_rate_limit`, `api.wait_on_rate_limit_notify`,
whether `api.auth` is set, whether `api.cache` is configured, the URL
pieces picked in `__init__`, and the identity of the api object (used for
`_api` back-references). -/
structure Config where
  retry_count : Nat
  retry_delay : ℚ
  retry_errors : List Nat
  wait_on_rate_limit : Bool
  wait_on_rate_limit_notify : Bool
  has_auth : Bool
  has_cache : Bool
  api_root : String
  path : String
  host : String
  api_id : Nat
deriving DecidableEq

/-- The shared api object as `execute` sees it: its configuration plus the
two fields `execute` mutates (`api.cached_result`, `api.last_response`). -/
structure Api where
  cfg : Config
  cached_result : Bool
  last_response : Option Resp
deriving DecidableEq

/-- The rate-limit bookkeeping owned by the `APIMethod` instance
(`self._remaining_calls`, `self._reset_time`). -/
structure MethodState where
  remaining_calls : Option Int
  reset_time : Option Int
deriving DecidableEq

/-- External collaborators: the transport (a stream of send results
indexed by send count), the cache's `get`, the parser's `parse_error`
(`none` models `parse_error` itself raising) and `parse`, and
`tweepy.error.is_rate_limit_error_message`. -/
structure Env where
  responses : Nat → SendResult
  cache_get : String → Option Payload
  parse_error : String → Option (String × Option Int)
  parse : String → Bool → Payload
  is_rate_limit_error_message : String → Bool

/-- Observable side effects of `execute`, in order of occurrence. -/
inductive Event where
  | cacheGet (key : String)
  | gateSleep (secs : Int)
  | authApply
  | send
  | retrySleep (secs : ℚ)
  | cacheStore (key : String) (val : Payload)
deriving DecidableEq

/-- Events emitted from inside the retry loop (everything except the cache
phases). -/
def Event.isLoopEvent : Event → Bool
  | .cacheGet _ => false
  | .cacheStore _ _ => false
  | _ => true

/-- State threaded through the retry loop: `retries_performed`, the two
rate-limit fields, the wall clock, the number of sends so far (indexing
the transport stream), and the accumulated event trace. -/
structure LoopState where
  retries_performed : Nat
  remaining_calls : Option Int
  reset_time : Option Int
  now : ℚ
  sends : Nat
  trace : List Event
deriving DecidableEq

/-- Result of the retry loop: `finished r st` means the loop exited (break
or exhausted budget) with `resp = r`; `raised` is the transport-failure
`TweepError`; `fuelOut` is the model artifact for running out of fuel
(the loop can genuinely diverge via `continue`). -/
inductive LoopResult where
  | finished (r : Resp) (st : LoopState)
  | raised (msg : String) (st : LoopState)
  | fuelOut (st : LoopState)
deriving DecidableEq

/-- The loop state carried by a loop result. -/
def LoopResult.state : LoopResult → LoopState
  | .finished _ st => st
  | .raised _ st => st
  | .fuelOut st => st

/-- Sleep amount of the rate-limit gate (binder.py lines 103-111): when
waiting is enabled and both fields are known with `remaining < 1`,
`sleep_time = reset - int(time.time())`; if positive, sleep
`sleep_time + 1`.  Returns `none` when no sleep happens. -/
def gateSleepSecs (cfg : Config) (st : LoopState) : Option Int :=
  if cfg.wait_on_rate_limit then
    match st.reset_time, st.remaining_calls with
    | some rt, some rc =>
      if rc < 1 then
        if 0 < rt - ⌊st.now⌋ then some (rt - ⌊st.now⌋ + 1) else none
      else none
    | _, _ => none
  else none

/-- Trace contribution of the rate-limit gate. -/
def gateEvents (cfg : Config) (st : LoopState) : List Event :=
  match gateSleepSecs cfg st with
  | some s => [Event.gateSleep s]
  | none => []

/-- Clock advance of the rate-limit gate. -/
def gateAdvance (cfg : Config) (st : LoopState) : ℚ :=
  match gateSleepSecs cfg st with
  | some s => (s : ℚ)
  | none => 0

/-- The rate-limit gate at the top of each loop iteration. -/
def applyGate (cfg : Config) (st : LoopState) : LoopState :=
  { st with now := st.now + gateAdvance cfg st, trace := st.trace ++ gateEvents cfg st }

/-- Trace contribution of the authentication step (binder.py lines
114-116): `api.auth.apply_auth()` is called iff `api.auth` is set. -/
def authEvents (cfg : Config) : List Event :=
  if cfg.has_auth then [Event.authApply] else []

/-- The authentication step of each loop iteration. -/
def applyAuth (cfg : Config) (st : LoopState) : LoopState :=
  { st with trace := st.trace ++ authEvents cfg }

/-- Gate then authentication: everything preceding the send in one loop
iteration. -/
def stepPre (cfg : Config) (st : LoopState) : LoopState :=
  applyAuth cfg (applyGate cfg st)

/-- Record one HTTP send. -/
def recordSend (st : LoopState) : LoopState :=
  { st with sends := st.sends + 1, trace := st.trace ++ [Event.send] }

/-- Update of `self._remaining_calls` from a non-2xx response (binder.py
lines 134-138): take the header if present, else decrement the previously
known value, else leave unknown. -/
def updatedRemaining (prev : Option Int) (r : Resp) : Option Int :=
  match r.rem_header with
  | some v => some v
  | none =>
    match prev with
    | some p => some (p - 1)
    | none => none

/-- Update of `self._reset_time` from a non-2xx response (binder.py lines
140-142): take the header if present. -/
def updatedReset (prev : Option Int) (r : Resp) : Option Int :=
  match r.reset_header with
  | some v => some v
  | none => prev

/-- Apply both rate-limit header updates to the loop state. -/
def updateRateState (st : LoopState) (r : Resp) : LoopState :=
  { st with remaining_calls := updatedRemaining st.remaining_calls r,
            reset_time := updatedReset st.reset_time r }

/-- Decision taken for a non-2xx response (binder.py lines 144-153),
given the already-updated `_remaining_calls`. -/
inductive Classified where
  | continueNow
  | breakNow
  | sleepRetry (delay : ℚ)
deriving DecidableEq

/-- Classification of a non-2xx response: on 420/429 with rate-limit
waiting enabled, `continue` if `_remaining_calls == 0`, else retry with
the `retry-after` header overriding the default delay; otherwise break if
a truthy `retry_errors` set excludes this status; otherwise retry with the
default delay. -/
def classify (cfg : Config) (remaining : Option Int) (r : Resp) : Classified :=
  if (r.status_code = 420 ∨ r.status_code = 429) ∧ cfg.wait_on_rate_limit then
    if remaining = some 0 then .continueNow
    else
      match r.retry_after with
      | some ra => .sleepRetry ra
      | none => .sleepRetry cfg.retry_delay
  else if cfg.retry_errors ≠ [] ∧ ¬ r.status_code ∈ cfg.retry_errors then .breakNow
  else .sleepRetry cfg.retry_delay

/-- Sleep the retry delay and increment `retries_performed` (binder.py
lines 155-157). -/
def sleepInc (st : LoopState) (d : ℚ) : LoopState :=
  { st with now := st.now + d, trace := st.trace ++ [Event.retrySleep d],
            retries_performed := st.retries_performed + 1 }

/-- One iteration of the retry loop body (binder.py lines 103-157): gate,
auth, send, then either exit the loop (`Sum.inl`: 2xx break, transport
raise, non-retryable break, or budget exhausted after the sleep) or go
around again (`Sum.inr`: the 420/429 `continue`, or sleep + increment with
budget remaining). -/
def iterStep (cfg : Config) (env : Env) (st : LoopState) : LoopResult ⊕ LoopState :=
  let st1 := stepPre cfg st
  match env.responses st1.sends with
  | .exc m => .inl (.raised ("Failed to send request: " ++ m) (recordSend st1))
  | .ok r =>
    let st2 := recordSend st1
    if 200 ≤ r.status_code ∧ r.status_code < 300 then .inl (.finished r st2)
    else
      let st3 := updateRateState st2 r
      match classify cfg st3.remaining_calls r with
      | .continueNow => .inr st3
      | .breakNow => .inl (.finished r st3)
      | .sleepRetry d =>
        let st4 := sleepInc st3 d
        if st4.retries_performed < cfg.retry_count + 1 then .inr st4
        else .inl (.finished r st4)

/-- The retry loop of `execute` (binder.py lines 101-157), modelled as a
do-while (the entry condition `retries_performed < retry_count + 1` holds
initially since `retries_performed = 0`, and the `continue` path leaves
`retries_performed` unchanged, so re-checking the condition there is a
no-op).  `fuel` bounds the number of loop iterations; the loop can run out
of fuel only through the `continue` path, which is exactly the source's
possible divergence. -/
def execLoop (cfg : Config) (env : Env) : Nat → LoopState → LoopResult
  | 0, st => .fuelOut st
  | fuel + 1, st =>
    match iterStep cfg env st with
    | .inl res => res
    | .inr st2 => execLoop cfg env fuel st2

/-- The loop state carried by either side of an iteration step. -/
def iterState : LoopResult ⊕ LoopState → LoopState
  | .inl res => res.state
  | .inr st => st

/-- Model of `urllib.parse.urlencode` (external stdlib collaborator); the
claims depend only on the cache-read and cache-write phases applying the
same encoding to the same parameters. -/
def urlencode (params : List (String × String)) : String :=
  String.intercalate "&" (params.map (fun p => p.1 ++ "=" ++ p.2))

/-- The cache key `f'{url}?{urlencode(self.session.params)}'` with
`url = self.api_root + self.path` (binder.py lines 79, 85, 180). -/
def cacheKey (cfg : Config) (params : List (String × String)) : String :=
  cfg.api_root ++ cfg.path ++ "?" ++ urlencode params

/-- The guard `use_cache and self.api.cache and method == 'GET'` shared by
the cache-read and cache-write phases. -/
def usesCache (cfg : Config) (method : String) (use_cache : Bool) : Bool :=
  use_cache && cfg.has_cache && (method == "GET")

/-- Trace contribution of the cache-read phase. -/
def cacheTrace (cfg : Config) (params : List (String × String))
    (method : String) (use_cache : Bool) : List Event :=
  if usesCache cfg method use_cache then [Event.cacheGet (cacheKey cfg params)] else []

/-- Outcome of the cache-read phase (binder.py lines 84-87): a payload is
returned iff the phase runs, the cache yields a value, and that value is
truthy (`if cache_result:`). -/
def cacheAttempt (env : Env) (cfg : Config) (params : List (String × String))
    (method : String) (use_cache : Bool) : Option Payload :=
  if usesCache cfg method use_cache then
    match env.cache_get (cacheKey cfg params) with
    | some v => if v.truthy then some v else none
    | none => none
  else none

/-- Final outcome of `execute`: a parsed (or cache-sourced) result, the
transport-failure `TweepError`, the generic `TweepError(msg, resp,
api_code)`, its `RateLimitError` subclass, or the out-of-fuel artifact. -/
inductive Outcome where
  | ok (result : Payload)
  | tweepError (msg : String)
  | apiError (msg : String) (resp : Resp) (api_code : Option Int)
  | rateLimitError (msg : String) (resp : Resp)
  | fuelOut
deriving DecidableEq

/-- Everything observable about one `execute` call: its outcome, the final
api object, the final method-owned rate-limit state, the event trace, and
the number of HTTP sends. -/
structure ExecResult where
  outcome : Outcome
  api : Api
  ms : MethodState
  trace : List Event
  sends : Nat
deriving DecidableEq

/-- Error message and api code extracted after the loop (binder.py lines
162-166): `parser.parse_error(resp.text)`, falling back to the synthesized
status-code message when that raises. -/
def errorContent (env : Env) (r : Resp) : String × Option Int :=
  match env.parse_error r.text with
  | some mc => mc
  | none => ("Twitter error response: status code = " ++ toString r.status_code, none)

/-- The parse of a successful body (binder.py lines 174-176): cursors are
forced when explicitly requested or when a `cursor` or `next` parameter is
present. -/
def parsedResult (env : Env) (params : List (String × String))
    (return_cursors : Bool) (r : Resp) : Payload :=
  env.parse r.text
    (return_cursors || dictMember params "cursor" || dictMember params "next")

/-- Post-loop processing of the final response (binder.py lines 159-182):
assign `api.last_response`; on a truthy non-2xx status classify and raise;
otherwise parse and store a truthy result in the cache. -/
def finishResp (env : Env) (api : Api) (params : List (String × String))
    (method : String) (return_cursors use_cache : Bool) (key : String)
    (r : Resp) (st : LoopState) : ExecResult :=
  let api2 := { api with last_response := some r }
  let ms2 : MethodState := ⟨st.remaining_calls, st.reset_time⟩
  if r.status_code ≠ 0 ∧ ¬ (200 ≤ r.status_code ∧ r.status_code < 300) then
    let ec := errorContent env r
    if env.is_rate_limit_error_message ec.1 then
      { outcome := .rateLimitError ec.1 r, api := api2, ms := ms2,
        trace := st.trace, sends := st.sends }
    else
      { outcome := .apiError ec.1 r ec.2, api := api2, ms := ms2,
        trace := st.trace, sends := st.sends }
  else
    let result := parsedResult env params return_cursors r
    if usesCache api.cfg method use_cache && result.truthy then
      { outcome := .ok result, api := api2, ms := ms2,
        trace := st.trace ++ [Event.cacheStore key result], sends := st.sends }
    else
      { outcome := .ok result, api := api2, ms := ms2,
        trace := st.trace, sends := st.sends }

/-- Initial loop state. -/
def initState (ms : MethodState) (now0 : ℚ) (trace0 : List Event) : LoopState :=
  { retries_performed := 0, remaining_calls := ms.remaining_calls,
    reset_time := ms.reset_time, now := now0, sends := 0, trace := trace0 }

/-- The network path of `execute` (cache miss): run the retry loop, then
post-process.  A transport failure propagates without touching
`api.last_response`. -/
def execNetwork (env : Env) (api : Api) (params : List (String × String))
    (method : String) (return_cursors use_cache : Bool) (key : String)
    (st0 : LoopState) (fuel : Nat) : ExecResult :=
  match execLoop api.cfg env fuel st0 with
  | .finished r st => finishResp env api params method return_cursors use_cache key r st
  | .raised m st =>
    { outcome := .tweepError m, api := api, ms := ⟨st.remaining_calls, st.reset_time⟩,
      trace := st.trace, sends := st.sends }
  | .fuelOut st =>
    { outcome := .fuelOut, api := api, ms := ⟨st.remaining_calls, st.reset_time⟩,
      trace := st.trace, sends := st.sends }

/-- `APIMethod.execute` (binder.py lines 75-182).  `api.cached_result` is
cleared at entry; on a truthy cached value the api back-reference is
restored, `api.cached_result` is set, and the value is returned with no
network activity; otherwise the retry loop runs. -/
def execute (api : Api) (params : List (String × String)) (ms : MethodState)
    (env : Env) (method : String) (return_cursors use_cache : Bool)
    (now0 : ℚ) (fuel : Nat) : ExecResult :=
  let api1 := { api with cached_result := false }
  let key := cacheKey api1.cfg params
  match cacheAttempt env api1.cfg params method use_cache with
  | some v =>
    { outcome := .ok (v.restoreApi api1.cfg.api_id),
      api := { api1 with cached_result := true }, ms := ms,
      trace := cacheTrace api1.cfg params method use_cache, sends := 0 }
  | none =>
    execNetwork env api1 params method return_cursors use_cache key
      (initState ms now0 (cacheTrace api1.cfg params method use_cache)) fuel

/-- Concrete inputs used to instantiate the claim theorems. -/
def c1Resp : Resp := ⟨500, none, none, none, "server error body"⟩

def c1Cfg : Config :=
  { retry_count := 2, retry_delay := 1, retry_errors := [500, 502],
    wait_on_rate_limit := false, wait_on_rate_limit_notify := false,
    has_auth := false, has_cache := false, api_root := "/1.1",
    path := "/statuses", host := "api.twitter.com", api_id := 7 }

def c1Api : Api := { cfg := c1Cfg, cached_result := false, last_response := none }

def c1Env : Env :=
  { responses := fun _ => SendResult.ok c1Resp, cache_get := fun _ => none,
    parse_error := fun _ => some ("Internal error", some 131),
    parse := fun _ _ => Payload.single (Elem.other true),
    is_rate_limit_error_message := fun _ => false }

def c4Cfg : Config :=
  { retry_count := 0, retry_delay := 1, retry_errors := [],
    wait_on_rate_limit := true, wait_on_rate_limit_notify := true,
    has_auth := true, has_cache := false, api_root := "/1.1",
    path := "/home", host := "api.twitter.com", api_id := 1 }

def c4St : LoopState :=
  { retries_performed := 0, remaining_calls := some 0, reset_time := some 200,
    now := 100, sends := 0, trace := [] }

def c4Env : Env :=
  { responses := fun _ => SendResult.ok ⟨200, none, none, none, "ok"⟩,
    cache_get := fun _ => none, parse_error := fun _ => none,
    parse := fun _ _ => Payload.single (Elem.other true),
    is_rate_limit_error_message := fun _ => false }

def c5Cfg : Config :=
  { retry_count := 0, retry_delay := 1, retry_errors := [],
    wait_on_rate_limit := false, wait_on_rate_limit_notify := false,
    has_auth := false, has_cache := true, api_root := "/1.1",
    path := "/friends", host := "api.twitter.com", api_id := 3 }

def c5Api : Api := { cfg := c5Cfg, cached_result := false, last_response := none }

def c5Hit : Payload := Payload.single (Elem.model none)

def c5HitEnv : Env :=
  { responses := fun _ => SendResult.ok ⟨200, none, none, none, "ok"⟩,
    cache_get := fun _ => some c5Hit, parse_error := fun _ => none,
    parse := fun _ _ => Payload.single (Elem.other true),
    is_rate_limit_error_message := fun _ => false }

def c5EmptyEnv : Env :=
  { responses := fun _ => SendResult.ok ⟨200, none, none, none, "ok"⟩,
    cache_get := fun _ => some (Payload.plist []), parse_error := fun _ => none,
    parse := fun _ _ => Payload.single (Elem.other true),
    is_rate_limit_error_message := fun _ => false }

def c6Cfg : Config :=
  { retry_count := 0, retry_delay := 120, retry_errors := [],
    wait_on_rate_limit := true, wait_on_rate_limit_notify := false,
    has_auth := false, has_cache := false, api_root := "/1.1",
    path := "/search", host := "api.twitter.com", api_id := 2 }

def c6Resp : Resp := ⟨429, some 2, none, some 5, "rate limited"⟩

def c6St : LoopState :=
  { retries_performed := 0, remaining_calls := some 3, reset_time := none,
    now := 0, sends := 0, trace := [] }

def c6Env : Env :=
  { responses := fun _ => SendResult.ok c6Resp, cache_get := fun _ => none,
    parse_error := fun _ => none,
    parse := fun _ _ => Payload.single (Elem.other true),
    is_rate_limit_error_message := fun _ => false }

def c7Cfg : Config :=
  { retry_count := 0, retry_delay := 1, retry_errors := [],
    wait_on_rate_limit := false, wait_on_rate_limit_notify := false,
    has_auth := false, has_cache := false, api_root := "/1.1",
    path := "/update", host := "api.twitter.com", api_id := 4 }

def c7Api : Api := { cfg := c7Cfg, cached_result := false, last_response := none }

def c7Resp : Resp := ⟨429, none, none, none, "limit body"⟩

def c7Env : Env :=
  { responses := fun _ => SendResult.ok c7Resp, cache_get := fun _ => none,
    parse_error := fun _ => some ("Rate limit exceeded", some 88),
    parse := fun _ _ => Payload.single (Elem.other true),
    is_rate_limit_error_message := fun s => s == "Rate limit exceeded" }

def c8Cfg : Config :=
  { retry_count := 0, retry_delay := 1, retry_errors := [],
    wait_on_rate_limit := false, wait_on_rate_limit_notify := false,
    has_auth := false, has_cache := true, api_root := "/1.1",
    path := "/x", host := "api.twitter.com", api_id := 5 }

def c8Api : Api := { cfg := c8Cfg, cached_result := false, last_response := none }

def c8Resp : Resp := ⟨200, none, none, none, "body"⟩

def c8Env : Env :=
  { responses := fun _ => SendResult.ok c8Resp, cache_get := fun _ => none,
    parse_error := fun _ => none,
    parse := fun _ _ => Payload.single (Elem.other true),
    is_rate_limit_error_message := fun _ => false }

def c9Cfg : Config :=
  { retry_count := 0, retry_delay := 1, retry_errors := [],
    wait_on_rate_limit := true, wait_on_rate_limit_notify := false,
    has_auth := false, has_cache := false, api_root := "/1.1",
    path := "/y", host := "api.twitter.com", api_id := 6 }

def c9Api : Api := { cfg := c9Cfg, cached_result := false, last_response := none }

def c9Resp429 : Resp := ⟨429, some 0, some 50, none, "rl"⟩

def c9Resp500 : Resp := ⟨500, none, none, none, "err"⟩

def c9Env : Env :=
  { responses := fun n => if n = 0 then SendResult.ok c9Resp429
      else SendResult.ok c9Resp500,
    cache_get := fun _ => none, parse_error := fun _ => some ("err", none),
    parse := fun _ _ => Payload.single (Elem.other true),
    is_rate_limit_error_message := fun _ => false }

def c9St : LoopState :=
  { retries_performed := 0, remaining_calls := none, reset_time := none,
    now := 100, sends := 0, trace := [] }

def c10Cfg : Config :=
  { retry_count := 5, retry_delay := 1, retry_errors := [],
    wait_on_rate_limit := false, wait_on_rate_limit_notify := false,
    has_auth := false, has_cache := false, api_root := "/1.1",
    path := "/z", host := "api.twitter.com", api_id := 8 }

def c10Api : Api := { cfg := c10Cfg, cached_result := true, last_response := none }

def c10Resp : Resp := ⟨500, none, none, none, "oops"⟩

def c10Env : Env :=
  { responses := fun n => if n = 0 then SendResult.ok c10Resp
      else SendResult.exc "boom",
    cache_get := fun _ => none, parse_error := fun _ => none,
    parse := fun _ _ => Payload.single (Elem.other true),
    is_rate_limit_error_message := fun _ => false }

/-- One retryable iteration's effect on the loop state: gate, auth, send,
header updates, retry sleep, counter increment. -/
def stepRetry (cfg : Config) (st : LoopState) (r : Resp) (d : ℚ) : LoopState :=
  sleepInc (updateRateState (recordSend (stepPre cfg st)) r) d

/-- One `continue` iteration's effect on the loop state: gate, auth, send,
header updates — no sleep, no counter increment. -/
def stepContinue (cfg : Config) (st : LoopState) (r : Resp) : LoopState :=
  updateRateState (recordSend (stepPre cfg st)) r

@[simp] theorem stepPre_sends (cfg : Config) (st : LoopState) :
    (stepPre cfg st).sends = st.sends := rfl

@[simp] theorem stepPre_retries (cfg : Config) (st : LoopState) :
    (stepPre cfg st).retries_performed = st.retries_performed := rfl

@[simp] theorem stepPre_remaining (cfg : Config) (st : LoopState) :
    (stepPre cfg st).remaining_calls = st.remaining_calls := rfl

@[simp] theorem stepPre_reset (cfg : Config) (st : LoopState) :
    (stepPre cfg st).reset_time = st.reset_time := rfl

theorem stepPre_trace (cfg : Config) (st : LoopState) :
    (stepPre cfg st).trace = st.trace ++ (gateEvents cfg st ++ authEvents cfg) := by
  simp [stepPre, applyAuth, applyGate]

@[simp] theorem recordSend_sends (st : LoopState) :
    (recordSend st).sends = st.sends + 1 := rfl

@[simp] theorem recordSend_retries (st : LoopState) :
    (recordSend st).retries_performed = st.retries_performed := rfl

@[simp] theorem recordSend_remaining (st : LoopState) :
    (recordSend st).remaining_calls = st.remaining_calls := rfl

@[simp] theorem recordSend_reset (st : LoopState) :
    (recordSend st).reset_time = st.reset_time := rfl

@[simp] theorem updateRateState_sends (st : LoopState) (r : Resp) :
    (updateRateState st r).sends = st.sends := rfl

@[simp] theorem updateRateState_retries (st : LoopState) (r : Resp) :
    (updateRateState st r).retries_performed = st.retries_performed := rfl

@[simp] theorem updateRateState_trace (st : LoopState) (r : Resp) :
    (updateRateState st r).trace = st.trace := rfl

@[simp] theorem updateRateState_remaining (st : LoopState) (r : Resp) :
    (updateRateState st r).remaining_calls = updatedRemaining st.remaining_calls r := rfl

@[simp] theorem updateRateState_reset (st : LoopState) (r : Resp) :
    (updateRateState st r).reset_time = updatedReset st.reset_time r := rfl

@[simp] theorem sleepInc_sends (st : LoopState) (d : ℚ) :
    (sleepInc st d).sends = st.sends := rfl

@[simp] theorem sleepInc_retries (st : LoopState) (d : ℚ) :
    (sleepInc st d).retries_performed = st.retries_performed + 1 := rfl

@[simp] theorem sleepInc_remaining (st : LoopState) (d : ℚ) :
    (sleepInc st d).remaining_calls = st.remaining_calls := rfl

@[simp] theorem sleepInc_reset (st : LoopState) (d : ℚ) :
    (sleepInc st d).reset_time = st.reset_time := rfl

@[simp] theorem stepRetry_sends (cfg : Config) (st : LoopState) (r : Resp) (d : ℚ) :
    (stepRetry cfg st r d).sends = st.sends + 1 := rfl

@[simp] theorem stepRetry_retries (cfg : Config) (st : LoopState) (r : Resp) (d : ℚ) :
    (stepRetry cfg st r d).retries_performed = st.retries_performed + 1 := rfl

@[simp] theorem stepRetry_remaining (cfg : Config) (st : LoopState) (r : Resp) (d : ℚ) :
    (stepRetry cfg st r d).remaining_calls = updatedRemaining st.remaining_calls r := rfl

@[simp] theorem stepRetry_reset (cfg : Config) (st : LoopState) (r : Resp) (d : ℚ) :
    (stepRetry cfg st r d).reset_time = updatedReset st.reset_time r := rfl

@[simp] theorem stepContinue_sends (cfg : Config) (st : LoopState) (r : Resp) :
    (stepContinue cfg st r).sends = st.sends + 1 := rfl

@[simp] theorem stepContinue_retries (cfg : Config) (st : LoopState) (r : Resp) :
    (stepContinue cfg st r).retries_performed = st.retries_performed := rfl

@[simp] theorem stepContinue_remaining (cfg : Config) (st : LoopState) (r : Resp) :
    (stepContinue cfg st r).remaining_calls = updatedRemaining st.remaining_calls r := rfl

@[simp] theorem initState_sends (ms : MethodState) (now0 : ℚ) (t : List Event) :
    (initState ms now0 t).sends = 0 := rfl

@[simp] theorem initState_retries (ms : MethodState) (now0 : ℚ) (t : List Event) :
    (initState ms now0 t).retries_performed = 0 := rfl

@[simp] theorem initState_trace (ms : MethodState) (now0 : ℚ) (t : List Event) :
    (initState ms now0 t).trace = t := rfl

theorem gateEvents_loopEvent (cfg : Config) (st : LoopState) :
    ∀ e ∈ gateEvents cfg st, e.isLoopEvent = true := by
  unfold gateEvents
  cases gateSleepSecs cfg st with
  | none => simp
  | some s => simp [Event.isLoopEvent]

theorem authEvents_loopEvent (cfg : Config) :
    ∀ e ∈ authEvents cfg, e.isLoopEvent = true := by
  unfold authEvents
  by_cases h : cfg.has_auth <;> simp [h, Event.isLoopEvent]

theorem send_not_mem_gateEvents (cfg : Config) (st : LoopState) :
    Event.send ∉ gateEvents cfg st := by
  unfold gateEvents
  cases gateSleepSecs cfg st with
  | none => simp
  | some s => simp

theorem send_not_mem_authEvents (cfg : Config) :
    Event.send ∉ authEvents cfg := by
  unfold authEvents
  by_cases h : cfg.has_auth <;> simp [h]

theorem stepContinue_trace (cfg : Config) (st : LoopState) (r : Resp) :
    (stepContinue cfg st r).trace =
      st.trace ++ (gateEvents cfg st ++ authEvents cfg ++ [Event.send]) := by
  simp [stepContinue, updateRateState, recordSend, stepPre_trace]

theorem stepRetry_trace (cfg : Config) (st : LoopState) (r : Resp) (d : ℚ) :
    (stepRetry cfg st r d).trace =
      st.trace ++ (gateEvents cfg st ++ authEvents cfg ++ [Event.send] ++
        [Event.retrySleep d]) := by
  simp [stepRetry, sleepInc, updateRateState, recordSend, stepPre_trace]

theorem preSend_loopEvent (cfg : Config) (st : LoopState) :
    ∀ e ∈ gateEvents cfg st ++ authEvents cfg ++ [Event.send],
      e.isLoopEvent = true := by
  intro e he
  rcases List.mem_append.1 he with h | h
  · rcases List.mem_append.1 h with h1 | h1
    · exact gateEvents_loopEvent cfg st e h1
    · exact authEvents_loopEvent cfg e h1
  · rw [List.mem_singleton] at h
    subst h
    rfl

/-- A transport exception on this iteration's send. -/
theorem iterStep_exc (cfg : Config) (env : Env) (st : LoopState) (m : String)
    (hresp : env.responses st.sends = SendResult.exc m) :
    iterStep cfg env st =
      .inl (.raised ("Failed to send request: " ++ m) (recordSend (stepPre cfg st))) := by
  simp only [iterStep, stepPre_sends]
  rw [hresp]

/-- A 2xx response breaks out of the loop. -/
theorem iterStep_success (cfg : Config) (env : Env) (st : LoopState) (r : Resp)
    (hresp : env.responses st.sends = SendResult.ok r)
    (h2 : 200 ≤ r.status_code ∧ r.status_code < 300) :
    iterStep cfg env st = .inl (.finished r (recordSend (stepPre cfg st))) := by
  simp only [iterStep, stepPre_sends]
  rw [hresp]
  simp [h2]

/-- The 420/429 `continue` path: no sleep, no increment. -/
theorem iterStep_continue (cfg : Config) (env : Env) (st : LoopState) (r : Resp)
    (hresp : env.responses st.sends = SendResult.ok r)
    (h2 : ¬ (200 ≤ r.status_code ∧ r.status_code < 300))
    (hc : classify cfg (updatedRemaining st.remaining_calls r) r = .continueNow) :
    iterStep cfg env st = .inr (stepContinue cfg st r) := by
  simp only [iterStep, stepPre_sends]
  rw [hresp]
  simp [h2, hc, stepContinue]

/-- The non-retryable break path. -/
theorem iterStep_break (cfg : Config) (env : Env) (st : LoopState) (r : Resp)
    (hresp : env.responses st.sends = SendResult.ok r)
    (h2 : ¬ (200 ≤ r.status_code ∧ r.status_code < 300))
    (hc : classify cfg (updatedRemaining st.remaining_calls r) r = .breakNow) :
    iterStep cfg env st = .inl (.finished r (stepContinue cfg st r)) := by
  simp only [iterStep, stepPre_sends]
  rw [hresp]
  simp [h2, hc, stepContinue]

/-- The sleep-and-retry path: sleep `d`, increment, re-check the loop
condition. -/
theorem iterStep_sleep (cfg : Config) (env : Env) (st : LoopState) (r : Resp) (d : ℚ)
    (hresp : env.responses st.sends = SendResult.ok r)
    (h2 : ¬ (200 ≤ r.status_code ∧ r.status_code < 300))
    (hc : classify cfg (updatedRemaining st.remaining_calls r) r = .sleepRetry d) :
    iterStep cfg env st =
      if st.retries_performed + 1 < cfg.retry_count + 1 then .inr (stepRetry cfg st r d)
      else .inl (.finished r (stepRetry cfg st r d)) := by
  simp only [iterStep, stepPre_sends]
  rw [hresp]
  simp [h2, hc, stepRetry]

/-- One iteration only appends loop events to the trace. -/
theorem iterStep_trace (cfg : Config) (env : Env) (st : LoopState) :
    ∃ t, (iterState (iterStep cfg env st)).trace = st.trace ++ t ∧
      ∀ e ∈ t, e.isLoopEvent = true := by
  cases hresp : env.responses st.sends with
  | exc m =>
    refine ⟨gateEvents cfg st ++ authEvents cfg ++ [Event.send], ?_, preSend_loopEvent cfg st⟩
    rw [iterStep_exc cfg env st m hresp]
    simp [iterState, LoopResult.state, recordSend, stepPre_trace]
  | ok r =>
    by_cases h2 : 200 ≤ r.status_code ∧ r.status_code < 300
    · refine ⟨gateEvents cfg st ++ authEvents cfg ++ [Event.send], ?_, preSend_loopEvent cfg st⟩
      rw [iterStep_success cfg env st r hresp h2]
      simp [iterState, LoopResult.state, recordSend, stepPre_trace]
    · cases hc : classify cfg (updatedRemaining st.remaining_calls r) r with
      | continueNow =>
        refine ⟨gateEvents cfg st ++ authEvents cfg ++ [Event.send], ?_, preSend_loopEvent cfg st⟩
        rw [iterStep_continue cfg env st r hresp h2 hc]
        simpa [iterState] using stepContinue_trace cfg st r
      | breakNow =>
        refine ⟨gateEvents cfg st ++ authEvents cfg ++ [Event.send], ?_, preSend_loopEvent cfg st⟩
        rw [iterStep_break cfg env st r hresp h2 hc]
        simpa [iterState, LoopResult.state] using stepContinue_trace cfg st r
      | sleepRetry d =>
        have hall : ∀ e ∈ gateEvents cfg st ++ authEvents cfg ++ [Event.send] ++
            [Event.retrySleep d], e.isLoopEvent = true := by
          intro e he
          rcases List.mem_append.1 he with h | h
          · exact preSend_loopEvent cfg st e h
          · rw [List.mem_singleton] at h
            subst h
            rfl
        refine ⟨gateEvents cfg st ++ authEvents cfg ++ [Event.send] ++
          [Event.retrySleep d], ?_, hall⟩
        rw [iterStep_sleep cfg env st r d hresp h2 hc]
        by_cases h4 : st.retries_performed + 1 < cfg.retry_count + 1
        · rw [if_pos h4]
          simpa [iterState] using stepRetry_trace cfg st r d
        · rw [if_neg h4]
          simpa [iterState, LoopResult.state] using stepRetry_trace cfg st r d

/-- The retry loop only ever appends loop events (sleeps, auth, sends) to
the trace it starts from. -/
theorem execLoop_trace_extend (cfg : Config) (env : Env) :
    ∀ fuel st, ∃ t, (execLoop cfg env fuel st).state.trace = st.trace ++ t ∧
      ∀ e ∈ t, e.isLoopEvent = true := by
  intro fuel
  induction fuel with
  | zero =>
    intro st
    exact ⟨[], by simp [execLoop, LoopResult.state], by simp⟩
  | succ f ih =>
    intro st
    obtain ⟨t1, ht1, hall1⟩ := iterStep_trace cfg env st
    cases hstep : iterStep cfg env st with
    | inl res =>
      refine ⟨t1, ?_, hall1⟩
      have : execLoop cfg env (f + 1) st = res := by
        simp [execLoop, hstep]
      rw [this]
      rw [hstep] at ht1
      simpa [iterState] using ht1
    | inr st2 =>
      obtain ⟨t2, ht2, hall2⟩ := ih st2
      refine ⟨t1 ++ t2, ?_, ?_⟩
      · have : execLoop cfg env (f + 1) st = execLoop cfg env f st2 := by
          simp [execLoop, hstep]
        rw [hstep] at ht1
        simp only [iterState] at ht1
        rw [this, ht2, ht1, List.append_assoc]
      · intro e he
        rcases List.mem_append.1 he with h | h
        · exact hall1 e h
        · exact hall2 e h

theorem dictMember_dictInsert_of_mem (d : List (String × String)) (a b k : String)
    (h : dictMember d k = true) : dictMember (dictInsert d a b) k = true := by
  unfold dictInsert
  rcases List.any_eq_true.1 h with ⟨p, hp, hpk⟩
  have hpk2 : p.1 = k := by simpa using hpk
  by_cases ha : dictMember d a
  · rw [if_pos ha]
    apply List.any_eq_true.2
    by_cases hpa : p.1 = a
    · refine ⟨(a, b), List.mem_map.2 ⟨p, hp, by rw [if_pos hpa]⟩, ?_⟩
      simp [← hpa, hpk2]
    · exact ⟨p, List.mem_map.2 ⟨p, hp, by rw [if_neg hpa]⟩, hpk⟩
  · rw [if_neg ha]
    exact List.any_eq_true.2 ⟨p, List.mem_append_left _ hp, hpk⟩

/-- A non-None positional argument sitting at or beyond the end of the
schema always trips the IndexError path. -/
theorem buildPositional_overflow (allowed : List String) (v : String)
    (rest : List (Option String)) :
    ∀ (pre : List (Option String)) (idx : Nat) (params : List (String × String)),
      idx + pre.length = allowed.length →
      buildPositional allowed (pre ++ some v :: rest) idx params =
        Except.error ParamError.tooManyParameters := by
  intro pre
  induction pre with
  | nil =>
    intro idx params hlen
    simp only [List.length_nil, Nat.add_zero] at hlen
    have hnone : allowed[idx]? = none := List.getElem?_eq_none (by omega)
    simp [buildPositional, hnone]
  | cons a pre ih =>
    intro idx params hlen
    simp only [List.length_cons] at hlen
    cases a with
    | none =>
      simp only [List.cons_append, buildPositional]
      exact ih (idx + 1) params (by omega)
    | some s =>
      have hidx : idx < allowed.length := by omega
      simp only [List.cons_append, buildPositional]
      rw [List.getElem?_eq_getElem hidx]
      exact ih (idx + 1) _ (by omega)

/-- If a key is already present when the keyword phase starts and some
keyword supplies a non-None value for it, the phase ends in a duplicate
error (raised at the first colliding keyword reached). -/
theorem buildKeyword_duplicate (k v : String) :
    ∀ (kwargs : List (String × Option String)) (params : List (String × String)),
      dictMember params k = true → (k, some v) ∈ kwargs →
      ∃ k2, buildKeyword kwargs params =
        Except.error (ParamError.duplicateParameter k2) := by
  intro kwargs
  induction kwargs with
  | nil =>
    intro params _ hmem
    cases hmem
  | cons hd t ih =>
    intro params hk hmem
    obtain ⟨k1, a1⟩ := hd
    cases a1 with
    | none =>
      have ht : (k, some v) ∈ t := by
        rcases List.mem_cons.1 hmem with heq | ht
        · exact absurd heq (by simp)
        · exact ht
      simp only [buildKeyword]
      exact ih params hk ht
    | some a =>
      by_cases hdup : dictMember params k1 = true
      · refine ⟨k1, ?_⟩
        simp only [buildKeyword]
        rw [if_pos hdup]
      · rcases List.mem_cons.1 hmem with heq | ht
        · injection heq with h1 h2
          subst h1
          exact absurd hk hdup
        · simp only [buildKeyword]
          rw [if_neg hdup]
          exact ih (dictInsert params k1 a) (dictMember_dictInsert_of_mem _ _ _ _ hk) ht

/-- C2 counterexample: with a schema of length 0, the single (= 0 + 1)
positional argument `None` is skipped by the absent-value rule
(binder.py lines 58-59), so `build_parameters` succeeds instead of
raising `TweepError('Too many parameters supplied!')`. -/
theorem c2_counterexample :
    (([none] : List (Option String)).length = ([] : List String).length + 1) ∧
    build_parameters [] [none] [] = Except.ok [] ∧
    build_parameters [] [none] [] ≠ Except.error ParamError.tooManyParameters := by
  refine ⟨rfl, rfl, ?_⟩
  intro h
  rw [(show build_parameters [] [none] ([] : List (String × Option String)) =
    Except.ok [] from rfl)] at h
  cases h

/-- C2 (amended): for every parameter schema of length n, calling
`build_parameters` with n + 1 positional arguments whose overflow
argument (the one at index n) is not the absent sentinel `None` fails
with `TweepError('Too many parameters supplied!')`, before any network
activity (the parameter phase performs none). -/
theorem c2_too_many_parameters (allowed : List String) (pre : List (Option String))
    (v : String) (rest : List (Option String))
    (kwargs : List (String × Option String))
    (hlen : pre.length = allowed.length) :
    build_parameters allowed (pre ++ some v :: rest) kwargs =
      Except.error ParamError.tooManyParameters ∧
    ParamError.tooManyParameters.message = "Too many parameters supplied!" := by
  refine ⟨?_, rfl⟩
  unfold build_parameters
  rw [buildPositional_overflow allowed v rest pre 0 [] (by omega)]

theorem c2_too_many_parameters_witness :
    build_parameters ["a"] [some "x", some "y"] [] =
      Except.error ParamError.tooManyParameters ∧
    ParamError.tooManyParameters.message = "Too many parameters supplied!" :=
  c2_too_many_parameters ["a"] [some "x"] "y" [] [] (by decide)

/-- C3 counterexample: the name `k` is supplied positionally (mapped via
the schema) and again as a keyword argument, but the keyword value is the
absent sentinel `None`, which binder.py lines 66-67 skip before the
duplicate check — so `build_parameters` succeeds instead of raising the
duplicate-parameter `TweepError`. -/
theorem c3_counterexample :
    build_parameters ["k"] [some "v"] [("k", none)] = Except.ok [("k", "v")] ∧
    ∀ e : ParamError, build_parameters ["k"] [some "v"] [("k", none)] ≠
      Except.error e := by
  refine ⟨rfl, ?_⟩
  intro e h
  rw [(show build_parameters ["k"] [some "v"] [("k", none)] =
    Except.ok [("k", "v")] from rfl)] at h
  cases h

/-- C3 (amended): whenever the positional phase succeeds with a parameter
set containing name k and some keyword argument supplies a non-None value
for k, `build_parameters` fails with a duplicate-parameter `TweepError`
(naming the first keyword that collides), whose message is
`'Multiple values for parameter {name} supplied!'`. -/
theorem c3_duplicate_parameter (allowed : List String) (args : List (Option String))
    (kwargs : List (String × Option String)) (p : List (String × String))
    (k v : String)
    (hpos : buildPositional allowed args 0 [] = Except.ok p)
    (hk : dictMember p k = true)
    (hkw : (k, some v) ∈ kwargs) :
    ∃ k2, build_parameters allowed args kwargs =
      Except.error (ParamError.duplicateParameter k2) ∧
      (ParamError.duplicateParameter k2).message =
        "Multiple values for parameter " ++ k2 ++ " supplied!" := by
  obtain ⟨k2, hk2⟩ := buildKeyword_duplicate k v kwargs p hk hkw
  refine ⟨k2, ?_, rfl⟩
  unfold build_parameters
  rw [hpos]
  exact hk2

theorem c3_duplicate_parameter_witness :
    ∃ k2, build_parameters ["k"] [some "1"] [("k", some "2")] =
      Except.error (ParamError.duplicateParameter k2) ∧
      (ParamError.duplicateParameter k2).message =
        "Multiple values for parameter " ++ k2 ++ " supplied!" :=
  c3_duplicate_parameter ["k"] [some "1"] [("k", some "2")] [("k", "1")] "k" "2"
    rfl rfl (by simp)

/-- On a cache miss, `execute` is the network path. -/
theorem execute_miss (api : Api) (params : List (String × String)) (ms : MethodState)
    (env : Env) (method : String) (return_cursors use_cache : Bool) (now0 : ℚ)
    (fuel : Nat)
    (hmiss : cacheAttempt env api.cfg params method use_cache = none) :
    execute api params ms env method return_cursors use_cache now0 fuel =
      execNetwork env { api with cached_result := false } params method
        return_cursors use_cache (cacheKey api.cfg params)
        (initState ms now0 (cacheTrace api.cfg params method use_cache)) fuel := by
  simp [execute, hmiss]

/-- On a (truthy) cache hit, `execute` returns the restored value at once. -/
theorem execute_hit (api : Api) (params : List (String × String)) (ms : MethodState)
    (env : Env) (method : String) (return_cursors use_cache : Bool) (now0 : ℚ)
    (fuel : Nat) (v : Payload)
    (hhit : cacheAttempt env api.cfg params method use_cache = some v) :
    execute api params ms env method return_cursors use_cache now0 fuel =
      { outcome := .ok (v.restoreApi api.cfg.api_id),
        api := { api with cached_result := true }, ms := ms,
        trace := cacheTrace api.cfg params method use_cache, sends := 0 } := by
  simp [execute, hhit]

theorem execNetwork_finished (env : Env) (api2 : Api) (params : List (String × String))
    (method : String) (return_cursors use_cache : Bool) (key : String)
    (st0 : LoopState) (fuel : Nat) (r : Resp) (st : LoopState)
    (h : execLoop api2.cfg env fuel st0 = .finished r st) :
    execNetwork env api2 params method return_cursors use_cache key st0 fuel =
      finishResp env api2 params method return_cursors use_cache key r st := by
  unfold execNetwork
  rw [h]

theorem execNetwork_raised (env : Env) (api2 : Api) (params : List (String × String))
    (method : String) (return_cursors use_cache : Bool) (key : String)
    (st0 : LoopState) (fuel : Nat) (m : String) (st : LoopState)
    (h : execLoop api2.cfg env fuel st0 = .raised m st) :
    execNetwork env api2 params method return_cursors use_cache key st0 fuel =
      { outcome := .tweepError m, api := api2,
        ms := ⟨st.remaining_calls, st.reset_time⟩,
        trace := st.trace, sends := st.sends } := by
  unfold execNetwork
  rw [h]

/-- Post-loop processing of a truthy non-2xx final status whose error
message does not match the rate-limit signature: the generic
`TweepError(msg, resp, api_code)`. -/
theorem finishResp_apiError (env : Env) (api2 : Api) (params : List (String × String))
    (method : String) (return_cursors use_cache : Bool) (key : String)
    (r : Resp) (st : LoopState)
    (hnz : r.status_code ≠ 0)
    (h2 : ¬ (200 ≤ r.status_code ∧ r.status_code < 300))
    (hnrl : env.is_rate_limit_error_message (errorContent env r).1 = false) :
    finishResp env api2 params method return_cursors use_cache key r st =
      { outcome := .apiError (errorContent env r).1 r (errorContent env r).2,
        api := { api2 with last_response := some r },
        ms := ⟨st.remaining_calls, st.reset_time⟩,
        trace := st.trace, sends := st.sends } := by
  unfold finishResp
  rw [if_pos ⟨hnz, h2⟩, if_neg (by simp [hnrl])]

/-- Post-loop processing of a truthy non-2xx final status whose error
message matches the rate-limit signature: `RateLimitError`. -/
theorem finishResp_rateLimit (env : Env) (api2 : Api) (params : List (String × String))
    (method : String) (return_cursors use_cache : Bool) (key : String)
    (r : Resp) (st : LoopState)
    (hnz : r.status_code ≠ 0)
    (h2 : ¬ (200 ≤ r.status_code ∧ r.status_code < 300))
    (hrl : env.is_rate_limit_error_message (errorContent env r).1 = true) :
    finishResp env api2 params method return_cursors use_cache key r st =
      { outcome := .rateLimitError (errorContent env r).1 r,
        api := { api2 with last_response := some r },
        ms := ⟨st.remaining_calls, st.reset_time⟩,
        trace := st.trace, sends := st.sends } := by
  unfold finishResp
  rw [if_pos ⟨hnz, h2⟩, if_pos hrl]

/-- Non-2xx classification when the status is neither 420 nor 429 but is
in a truthy `retry_errors` set: sleep the default delay and retry. -/
theorem classify_retryable (cfg : Config) (remaining : Option Int) (r : Resp)
    (h420 : r.status_code ≠ 420) (h429 : r.status_code ≠ 429)
    (hmem : r.status_code ∈ cfg.retry_errors) :
    classify cfg remaining r = .sleepRetry cfg.retry_delay := by
  unfold classify
  rw [if_neg (by rintro ⟨h1 | h1, -⟩ <;> simp_all)]
  rw [if_neg (fun h => h.2 hmem)]

/-- Non-2xx classification for 420/429 with waiting enabled and an
exhausted tracked quota: `continue`. -/
theorem classify_continue (cfg : Config) (remaining : Option Int) (r : Resp)
    (hst : r.status_code = 420 ∨ r.status_code = 429)
    (hw : cfg.wait_on_rate_limit = true)
    (hrem : remaining = some 0) :
    classify cfg remaining r = .continueNow := by
  unfold classify
  rw [if_pos ⟨hst, hw⟩, if_pos hrem]

/-- Non-2xx classification for 420/429 with waiting enabled, quota not
exactly 0, and a `retry-after` header: sleep the header value. -/
theorem classify_retry_after (cfg : Config) (remaining : Option Int) (r : Resp) (q : ℚ)
    (hst : r.status_code = 420 ∨ r.status_code = 429)
    (hw : cfg.wait_on_rate_limit = true)
    (hrem : remaining ≠ some 0)
    (hra : r.retry_after = some q) :
    classify cfg remaining r = .sleepRetry q := by
  unfold classify
  rw [if_pos ⟨hst, hw⟩, if_neg hrem, hra]

/-- Unrolling of one loop iteration whose response has a retryable
non-420/429 status in `retry_errors`. -/
theorem execLoop_retry_unroll (cfg : Config) (env : Env) (f : Nat) (st : LoopState)
    (r : Resp)
    (hresp : env.responses st.sends = SendResult.ok r)
    (h2 : ¬ (200 ≤ r.status_code ∧ r.status_code < 300))
    (h420 : r.status_code ≠ 420) (h429 : r.status_code ≠ 429)
    (hmem : r.status_code ∈ cfg.retry_errors) :
    execLoop cfg env (f + 1) st =
      if st.retries_performed + 1 < cfg.retry_count + 1 then
        execLoop cfg env f (stepRetry cfg st r cfg.retry_delay)
      else .finished r (stepRetry cfg st r cfg.retry_delay) := by
  have hi := iterStep_sleep cfg env st r cfg.retry_delay hresp h2
    (classify_retryable cfg _ r h420 h429 hmem)
  by_cases h4 : st.retries_performed + 1 < cfg.retry_count + 1
  · rw [if_pos h4] at hi ⊢
    simp [execLoop, hi]
  · rw [if_neg h4] at hi ⊢
    simp [execLoop, hi]

/-- C1: with `api.retry_count = 2` and every HTTP send answered with
status 500, 500 being in the configured retryable set, `execute` performs
exactly 3 send attempts and then raises the generic
`TweepError(msg, resp, api_code)` carrying the message parsed by
`parser.parse_error` (the message is assumed not to match the rate-limit
signature, which is what makes the raised error the generic one). -/
theorem c1_retry_exhaustion (api : Api) (params : List (String × String))
    (ms : MethodState) (env : Env) (method : String)
    (return_cursors use_cache : Bool) (now0 : ℚ) (fuel : Nat)
    (r0 r1 r2 : Resp) (m : String) (c : Option Int)
    (hrc : api.cfg.retry_count = 2)
    (hmiss : cacheAttempt env api.cfg params method use_cache = none)
    (h0 : env.responses 0 = SendResult.ok r0) (hs0 : r0.status_code = 500)
    (h1 : env.responses 1 = SendResult.ok r1) (hs1 : r1.status_code = 500)
    (h2 : env.responses 2 = SendResult.ok r2) (hs2 : r2.status_code = 500)
    (hmem : 500 ∈ api.cfg.retry_errors)
    (hfuel : 3 ≤ fuel)
    (hparse : env.parse_error r2.text = some (m, c))
    (hnrl : env.is_rate_limit_error_message m = false) :
    (execute api params ms env method return_cursors use_cache now0 fuel).sends = 3 ∧
    (execute api params ms env method return_cursors use_cache now0 fuel).outcome =
      Outcome.apiError m r2 c := by
  obtain ⟨f, rfl⟩ : ∃ f, fuel = f + 1 + 1 + 1 := ⟨fuel - 3, by omega⟩
  have hec : errorContent env r2 = (m, c) := by simp [errorContent, hparse]
  have hE : execLoop api.cfg env (f + 1 + 1 + 1)
      (initState ms now0 (cacheTrace api.cfg params method use_cache)) =
      LoopResult.finished r2
        (stepRetry api.cfg
          (stepRetry api.cfg
            (stepRetry api.cfg
              (initState ms now0 (cacheTrace api.cfg params method use_cache))
              r0 api.cfg.retry_delay)
            r1 api.cfg.retry_delay)
          r2 api.cfg.retry_delay) := by
    rw [execLoop_retry_unroll api.cfg env (f + 1 + 1) _ r0 h0
      (by rw [hs0]; omega) (by simp [hs0]) (by simp [hs0]) (by rw [hs0]; exact hmem)]
    rw [if_pos (by simp only [initState_retries, hrc]; omega)]
    rw [execLoop_retry_unroll api.cfg env (f + 1) _ r1
      (by simpa using h1)
      (by rw [hs1]; omega) (by simp [hs1]) (by simp [hs1]) (by rw [hs1]; exact hmem)]
    rw [if_pos (by simp only [stepRetry_retries, initState_retries, hrc]; omega)]
    rw [execLoop_retry_unroll api.cfg env f _ r2
      (by simpa using h2)
      (by rw [hs2]; omega) (by simp [hs2]) (by simp [hs2]) (by rw [hs2]; exact hmem)]
    rw [if_neg (by simp only [stepRetry_retries, initState_retries, hrc]; omega)]
  rw [execute_miss api params ms env method return_cursors use_cache now0 _ hmiss]
  rw [execNetwork_finished env { api with cached_result := false } params method
    return_cursors use_cache (cacheKey api.cfg params) _ _ r2 _ hE]
  rw [finishResp_apiError env { api with cached_result := false } params method
    return_cursors use_cache (cacheKey api.cfg params) r2 _
    (by simp [hs2]) (by rw [hs2]; omega) (by rw [hec]; exact hnrl)]
  rw [hec]
  exact ⟨by simp, rfl⟩

theorem c1_retry_exhaustion_witness :
    (execute c1Api [] ⟨none, none⟩ c1Env "GET" false true 0 3).sends = 3 ∧
    (execute c1Api [] ⟨none, none⟩ c1Env "GET" false true 0 3).outcome =
      Outcome.apiError "Internal error" c1Resp (some 131) :=
  c1_retry_exhaustion c1Api [] ⟨none, none⟩ c1Env "GET" false true 0 3
    c1Resp c1Resp c1Resp "Internal error" (some 131)
    rfl rfl rfl rfl rfl rfl rfl rfl (by decide) (by decide) rfl rfl

theorem retrySleep_not_mem_gateEvents (cfg : Config) (st : LoopState) (d : ℚ) :
    Event.retrySleep d ∉ gateEvents cfg st := by
  unfold gateEvents
  cases gateSleepSecs cfg st with
  | none => simp
  | some s => simp

theorem retrySleep_not_mem_authEvents (cfg : Config) (d : ℚ) :
    Event.retrySleep d ∉ authEvents cfg := by
  unfold authEvents
  by_cases h : cfg.has_auth <;> simp [h]

/-- Every loop iteration's trace contribution starts with the gate events,
then the auth events, then the send. -/
theorem execLoop_succ_trace (cfg : Config) (env : Env) (f : Nat) (st : LoopState) :
    ∃ tail, (execLoop cfg env (f + 1) st).state.trace =
      st.trace ++ (gateEvents cfg st ++ (authEvents cfg ++ (Event.send :: tail))) := by
  cases hresp : env.responses st.sends with
  | exc m =>
    refine ⟨[], ?_⟩
    have he : execLoop cfg env (f + 1) st =
        .raised ("Failed to send request: " ++ m) (recordSend (stepPre cfg st)) := by
      simp [execLoop, iterStep_exc cfg env st m hresp]
    rw [he]
    simp [LoopResult.state, recordSend, stepPre_trace]
  | ok r =>
    by_cases h2 : 200 ≤ r.status_code ∧ r.status_code < 300
    · refine ⟨[], ?_⟩
      have he : execLoop cfg env (f + 1) st =
          .finished r (recordSend (stepPre cfg st)) := by
        simp [execLoop, iterStep_success cfg env st r hresp h2]
      rw [he]
      simp [LoopResult.state, recordSend, stepPre_trace]
    · cases hc : classify cfg (updatedRemaining st.remaining_calls r) r with
      | continueNow =>
        obtain ⟨t2, ht2, -⟩ := execLoop_trace_extend cfg env f (stepContinue cfg st r)
        refine ⟨t2, ?_⟩
        have he : execLoop cfg env (f + 1) st =
            execLoop cfg env f (stepContinue cfg st r) := by
          simp [execLoop, iterStep_continue cfg env st r hresp h2 hc]
        rw [he, ht2, stepContinue_trace]
        simp
      | breakNow =>
        refine ⟨[], ?_⟩
        have he : execLoop cfg env (f + 1) st = .finished r (stepContinue cfg st r) := by
          simp [execLoop, iterStep_break cfg env st r hresp h2 hc]
        rw [he]
        have ht := stepContinue_trace cfg st r
        simp [LoopResult.state, ht]
      | sleepRetry d =>
        have hi := iterStep_sleep cfg env st r d hresp h2 hc
        by_cases h4 : st.retries_performed + 1 < cfg.retry_count + 1
        · rw [if_pos h4] at hi
          obtain ⟨t2, ht2, -⟩ := execLoop_trace_extend cfg env f (stepRetry cfg st r d)
          refine ⟨Event.retrySleep d :: t2, ?_⟩
          have he : execLoop cfg env (f + 1) st =
              execLoop cfg env f (stepRetry cfg st r d) := by
            simp [execLoop, hi]
          rw [he, ht2, stepRetry_trace]
          simp
        · rw [if_neg h4] at hi
          refine ⟨[Event.retrySleep d], ?_⟩
          have he : execLoop cfg env (f + 1) st = .finished r (stepRetry cfg st r d) := by
            simp [execLoop, hi]
          rw [he]
          have ht := stepRetry_trace cfg st r d
          simp [LoopResult.state, ht]

/-- C4: whenever rate-limit-aware waiting is enabled, `_reset_time` and
`_remaining_calls` are both known, `_remaining_calls < 1`, and the reset
time lies in the future, the loop iteration sleeps
`_reset_time - int(now) + 1` seconds — which is at least
`_reset_time - now` — and this gate sleep sits at the top of the
iteration's trace, before the authentication events and before the HTTP
send; the lemma holds for an arbitrary iteration state, i.e. the gate runs
on every loop iteration. -/
theorem c4_rate_limit_gate (cfg : Config) (env : Env) (fuel : Nat) (st : LoopState)
    (rt rc : Int)
    (hw : cfg.wait_on_rate_limit = true)
    (hr : st.reset_time = some rt)
    (hc : st.remaining_calls = some rc)
    (hrc : rc < 1)
    (hfut : st.now < (rt : ℚ)) :
    ∃ tail, (execLoop cfg env (fuel + 1) st).state.trace =
        st.trace ++ (Event.gateSleep (rt - ⌊st.now⌋ + 1) ::
          (authEvents cfg ++ (Event.send :: tail))) ∧
      (rt : ℚ) - st.now ≤ ((rt - ⌊st.now⌋ + 1 : Int) : ℚ) := by
  have hfl : ⌊st.now⌋ < rt := Int.floor_lt.mpr hfut
  have hgs : gateSleepSecs cfg st = some (rt - ⌊st.now⌋ + 1) := by
    simp only [gateSleepSecs, hw, hr, hc]
    rw [if_pos hrc, if_pos (by omega : (0 : Int) < rt - ⌊st.now⌋)]
    simp
  have hge : gateEvents cfg st = [Event.gateSleep (rt - ⌊st.now⌋ + 1)] := by
    simp [gateEvents, hgs]
  obtain ⟨tail, ht⟩ := execLoop_succ_trace cfg env fuel st
  refine ⟨tail, ?_, ?_⟩
  · rw [ht, hge]
    simp
  · have h1 : (⌊st.now⌋ : ℚ) ≤ st.now := Int.floor_le st.now
    push_cast
    linarith

theorem c4_rate_limit_gate_witness :
    ∃ tail, (execLoop c4Cfg c4Env (0 + 1) c4St).state.trace =
        c4St.trace ++ (Event.gateSleep (200 - ⌊c4St.now⌋ + 1) ::
          (authEvents c4Cfg ++ (Event.send :: tail))) ∧
      ((200 : Int) : ℚ) - c4St.now ≤ ((200 - ⌊c4St.now⌋ + 1 : Int) : ℚ) :=
  c4_rate_limit_gate c4Cfg c4Env 0 c4St 200 0 rfl rfl rfl (by decide)
    (by norm_num [c4St])

/-- C6: a 420/429 response received while rate-limit waiting is enabled,
with the tracked remaining-call count (after the header update) known and
positive, and carrying a `retry-after: 5` header, delays the next retry by
the header value 5 (hence at least 5 seconds, overriding the configured
default `retry_delay`): in the iteration's trace the send is immediately
followed by a 5-second retry sleep. -/
theorem c6_retry_after_override (cfg : Config) (env : Env) (fuel : Nat)
    (st : LoopState) (r : Resp) (v : Int)
    (hresp : env.responses st.sends = SendResult.ok r)
    (hst : r.status_code = 420 ∨ r.status_code = 429)
    (hw : cfg.wait_on_rate_limit = true)
    (hrem : updatedRemaining st.remaining_calls r = some v)
    (hv : 0 < v)
    (hra : r.retry_after = some 5) :
    ∃ g tail, (execLoop cfg env (fuel + 1) st).state.trace =
        st.trace ++ (g ++ (Event.send :: Event.retrySleep 5 :: tail)) ∧
      Event.send ∉ g := by
  have h2 : ¬ (200 ≤ r.status_code ∧ r.status_code < 300) := by
    rcases hst with h | h <;> rw [h] <;> omega
  have hcl : classify cfg (updatedRemaining st.remaining_calls r) r = .sleepRetry 5 :=
    classify_retry_after cfg _ r 5 hst hw
      (by rw [hrem]; intro hcon; injection hcon with h0; omega) hra
  have hi := iterStep_sleep cfg env st r 5 hresp h2 hcl
  by_cases h4 : st.retries_performed + 1 < cfg.retry_count + 1
  · rw [if_pos h4] at hi
    obtain ⟨t2, ht2, -⟩ := execLoop_trace_extend cfg env fuel (stepRetry cfg st r 5)
    refine ⟨gateEvents cfg st ++ authEvents cfg, t2, ?_, ?_⟩
    · have he : execLoop cfg env (fuel + 1) st =
          execLoop cfg env fuel (stepRetry cfg st r 5) := by
        simp [execLoop, hi]
      rw [he, ht2, stepRetry_trace]
      simp
    · intro hmem
      rcases List.mem_append.1 hmem with h | h
      · exact send_not_mem_gateEvents cfg st h
      · exact send_not_mem_authEvents cfg h
  · rw [if_neg h4] at hi
    refine ⟨gateEvents cfg st ++ authEvents cfg, [], ?_, ?_⟩
    · have he : execLoop cfg env (fuel + 1) st = .finished r (stepRetry cfg st r 5) := by
        simp [execLoop, hi]
      rw [he]
      have ht := stepRetry_trace cfg st r 5
      simp [LoopResult.state, ht]
    · intro hmem
      rcases List.mem_append.1 hmem with h | h
      · exact send_not_mem_gateEvents cfg st h
      · exact send_not_mem_authEvents cfg h

theorem c6_retry_after_override_witness :
    ∃ g tail, (execLoop c6Cfg c6Env (0 + 1) c6St).state.trace =
        c6St.trace ++ (g ++ (Event.send :: Event.retrySleep 5 :: tail)) ∧
      Event.send ∉ g :=
  c6_retry_after_override c6Cfg c6Env 0 c6St c6Resp 2 rfl (Or.inr rfl) rfl rfl
    (by decide) rfl

theorem execNetwork_fuelOut (env : Env) (api2 : Api) (params : List (String × String))
    (method : String) (return_cursors use_cache : Bool) (key : String)
    (st0 : LoopState) (fuel : Nat) (st : LoopState)
    (h : execLoop api2.cfg env fuel st0 = .fuelOut st) :
    execNetwork env api2 params method return_cursors use_cache key st0 fuel =
      { outcome := .fuelOut, api := api2,
        ms := ⟨st.remaining_calls, st.reset_time⟩,
        trace := st.trace, sends := st.sends } := by
  unfold execNetwork
  rw [h]

/-- Success path with the cache-store guard satisfied. -/
theorem finishResp_success_store (env : Env) (api2 : Api)
    (params : List (String × String)) (method : String)
    (return_cursors use_cache : Bool) (key : String) (r : Resp) (st : LoopState)
    (hA : ¬ (r.status_code ≠ 0 ∧ ¬ (200 ≤ r.status_code ∧ r.status_code < 300)))
    (hu : usesCache api2.cfg method use_cache = true)
    (ht : (parsedResult env params return_cursors r).truthy = true) :
    finishResp env api2 params method return_cursors use_cache key r st =
      { outcome := .ok (parsedResult env params return_cursors r),
        api := { api2 with last_response := some r },
        ms := ⟨st.remaining_calls, st.reset_time⟩,
        trace := st.trace ++
          [Event.cacheStore key (parsedResult env params return_cursors r)],
        sends := st.sends } := by
  unfold finishResp
  rw [if_neg hA]
  rw [if_pos (by rw [hu, ht]; rfl)]

/-- Success path with the cache-store guard failing. -/
theorem finishResp_success_nostore (env : Env) (api2 : Api)
    (params : List (String × String)) (method : String)
    (return_cursors use_cache : Bool) (key : String) (r : Resp) (st : LoopState)
    (hA : ¬ (r.status_code ≠ 0 ∧ ¬ (200 ≤ r.status_code ∧ r.status_code < 300)))
    (hn : (usesCache api2.cfg method use_cache &&
      (parsedResult env params return_cursors r).truthy) = false) :
    finishResp env api2 params method return_cursors use_cache key r st =
      { outcome := .ok (parsedResult env params return_cursors r),
        api := { api2 with last_response := some r },
        ms := ⟨st.remaining_calls, st.reset_time⟩,
        trace := st.trace, sends := st.sends } := by
  unfold finishResp
  rw [if_neg hA]
  rw [if_neg (by simp [hn])]

/-- C7: for every execution whose retry loop ends with a response of
truthy non-2xx status, the raised error is `RateLimitError` exactly when
the message obtained from `parse_error` (or the synthesized fallback when
`parse_error` itself fails — both folded into `errorContent`) matches the
rate-limit signature, and otherwise the generic
`TweepError(msg, resp, api_code)` carrying message, response and the
optional api error code. -/
theorem c7_error_classification (api : Api) (params : List (String × String))
    (ms : MethodState) (env : Env) (method : String)
    (return_cursors use_cache : Bool) (now0 : ℚ) (fuel : Nat) (r : Resp)
    (hmiss : cacheAttempt env api.cfg params method use_cache = none)
    (hloop : ∃ st, execLoop api.cfg env fuel
      (initState ms now0 (cacheTrace api.cfg params method use_cache)) =
      LoopResult.finished r st)
    (hnz : r.status_code ≠ 0)
    (h2 : ¬ (200 ≤ r.status_code ∧ r.status_code < 300)) :
    (env.is_rate_limit_error_message (errorContent env r).1 = true →
      (execute api params ms env method return_cursors use_cache now0 fuel).outcome =
        Outcome.rateLimitError (errorContent env r).1 r) ∧
    (env.is_rate_limit_error_message (errorContent env r).1 = false →
      (execute api params ms env method return_cursors use_cache now0 fuel).outcome =
        Outcome.apiError (errorContent env r).1 r (errorContent env r).2) := by
  obtain ⟨st, hloop⟩ := hloop
  rw [execute_miss api params ms env method return_cursors use_cache now0 fuel hmiss]
  rw [execNetwork_finished env { api with cached_result := false } params method
    return_cursors use_cache (cacheKey api.cfg params) _ fuel r st hloop]
  constructor
  · intro hrl
    rw [finishResp_rateLimit env { api with cached_result := false } params method
      return_cursors use_cache (cacheKey api.cfg params) r st hnz h2 hrl]
  · intro hnrl
    rw [finishResp_apiError env { api with cached_result := false } params method
      return_cursors use_cache (cacheKey api.cfg params) r st hnz h2 hnrl]

theorem c7_error_classification_witness :
    (c7Env.is_rate_limit_error_message (errorContent c7Env c7Resp).1 = true →
      (execute c7Api [] ⟨none, none⟩ c7Env "GET" false true 0 1).outcome =
        Outcome.rateLimitError (errorContent c7Env c7Resp).1 c7Resp) ∧
    (c7Env.is_rate_limit_error_message (errorContent c7Env c7Resp).1 = false →
      (execute c7Api [] ⟨none, none⟩ c7Env "GET" false true 0 1).outcome =
        Outcome.apiError (errorContent c7Env c7Resp).1 c7Resp
          (errorContent c7Env c7Resp).2) :=
  c7_error_classification c7Api [] ⟨none, none⟩ c7Env "GET" false true 0 1
    c7Resp rfl ⟨_, rfl⟩ (by decide) (by decide)

/-- C8: on a successful GET with caching enabled, a cache collaborator
configured and a cache miss, a falsy parsed result is never written to the
cache (no `cacheStore` event anywhere in the trace), and a truthy parsed
result is stored under exactly the cache key used by the lookup phase (the
trace is the lookup at that key, loop events, then the store at the same
key). -/
theorem c8_cache_write (api : Api) (params : List (String × String))
    (ms : MethodState) (env : Env) (return_cursors : Bool) (now0 : ℚ) (fuel : Nat)
    (r : Resp)
    (hhc : api.cfg.has_cache = true)
    (hmiss : cacheAttempt env api.cfg params "GET" true = none)
    (hloop : ∃ st, execLoop api.cfg env fuel
      (initState ms now0 (cacheTrace api.cfg params "GET" true)) =
      LoopResult.finished r st)
    (h2 : 200 ≤ r.status_code ∧ r.status_code < 300) :
    ((parsedResult env params return_cursors r).truthy = false →
      ∀ k v, Event.cacheStore k v ∉
        (execute api params ms env "GET" return_cursors true now0 fuel).trace) ∧
    ((parsedResult env params return_cursors r).truthy = true →
      ∃ t, (execute api params ms env "GET" return_cursors true now0 fuel).trace =
        Event.cacheGet (cacheKey api.cfg params) ::
          (t ++ [Event.cacheStore (cacheKey api.cfg params)
            (parsedResult env params return_cursors r)])) := by
  obtain ⟨st, hloop⟩ := hloop
  have hu : usesCache api.cfg "GET" true = true := by
    simp [usesCache, hhc]
  have hct : cacheTrace api.cfg params "GET" true =
      [Event.cacheGet (cacheKey api.cfg params)] := by
    simp [cacheTrace, hu]
  obtain ⟨t, ht, hall⟩ := execLoop_trace_extend api.cfg env fuel
    (initState ms now0 (cacheTrace api.cfg params "GET" true))
  rw [hloop] at ht
  simp only [LoopResult.state, initState_trace, hct] at ht
  rw [execute_miss api params ms env "GET" return_cursors true now0 fuel hmiss]
  rw [execNetwork_finished env { api with cached_result := false } params "GET"
    return_cursors true (cacheKey api.cfg params) _ fuel r st hloop]
  constructor
  · intro hfalse k v hmem
    rw [finishResp_success_nostore env { api with cached_result := false } params
      "GET" return_cursors true (cacheKey api.cfg params) r st (fun hcon => hcon.2 h2)
      (by rw [hfalse]; simp)] at hmem
    simp only at hmem
    rw [ht] at hmem
    rcases List.mem_append.1 hmem with h | h
    · simp at h
    · have hle := hall _ h
      simp [Event.isLoopEvent] at hle
  · intro htrue
    rw [finishResp_success_store env { api with cached_result := false } params
      "GET" return_cursors true (cacheKey api.cfg params) r st (fun hcon => hcon.2 h2)
      hu htrue]
    refine ⟨t, ?_⟩
    simp only
    rw [ht]
    simp

theorem c8_cache_write_witness :
    ((parsedResult c8Env [] false c8Resp).truthy = false →
      ∀ k v, Event.cacheStore k v ∉
        (execute c8Api [] ⟨none, none⟩ c8Env "GET" false true 0 1).trace) ∧
    ((parsedResult c8Env [] false c8Resp).truthy = true →
      ∃ t, (execute c8Api [] ⟨none, none⟩ c8Env "GET" false true 0 1).trace =
        Event.cacheGet (cacheKey c8Api.cfg []) ::
          (t ++ [Event.cacheStore (cacheKey c8Api.cfg [])
            (parsedResult c8Env [] false c8Resp)])) :=
  c8_cache_write c8Api [] ⟨none, none⟩ c8Env false 0 1 c8Resp
    rfl rfl ⟨_, rfl⟩ (by decide)

/-- C5 (amended): on a GET with `use_cache` enabled and a cache
configured, when the lookup under `url + ? + urlencode(params)` returns a
truthy value, `execute` restores the owning-api back-reference on the
value (elementwise when it is a list), marks the result cache-sourced, and
returns it immediately: the whole observable behaviour is the single cache
lookup — no send, no authentication, no sleeping, no rate-limit
bookkeeping, `last_response` untouched. -/
theorem c5_cache_hit (api : Api) (params : List (String × String)) (ms : MethodState)
    (env : Env) (method : String) (return_cursors : Bool) (now0 : ℚ) (fuel : Nat)
    (v : Payload)
    (hhc : api.cfg.has_cache = true)
    (hm : method = "GET")
    (hget : env.cache_get (cacheKey api.cfg params) = some v)
    (htruthy : v.truthy = true) :
    execute api params ms env method return_cursors true now0 fuel =
      { outcome := .ok (v.restoreApi api.cfg.api_id),
        api := { api with cached_result := true }, ms := ms,
        trace := [Event.cacheGet (cacheKey api.cfg params)], sends := 0 } := by
  have hu : usesCache api.cfg method true = true := by
    simp [usesCache, hhc, hm]
  have hhit : cacheAttempt env api.cfg params method true = some v := by
    simp [cacheAttempt, hu, hget, htruthy]
  rw [execute_hit api params ms env method return_cursors true now0 fuel v hhit]
  simp [cacheTrace, hu]

theorem c5_cache_hit_witness :
    execute c5Api [] ⟨none, none⟩ c5HitEnv "GET" false true 0 1 =
      { outcome := .ok (c5Hit.restoreApi c5Api.cfg.api_id),
        api := { c5Api with cached_result := true }, ms := ⟨none, none⟩,
        trace := [Event.cacheGet (cacheKey c5Api.cfg [])], sends := 0 } :=
  c5_cache_hit c5Api [] ⟨none, none⟩ c5HitEnv "GET" false 0 1 c5Hit rfl rfl rfl rfl

/-- C5 counterexample: the cache lookup does return a value — the empty
list — but `execute` does not return it immediately: the value is falsy,
so `if cache_result:` (binder.py line 87) falls through and the call
proceeds to the network (an HTTP send happens and the result is not marked
cache-sourced), contradicting the claim for non-truthy cached values. -/
theorem c5_counterexample :
    c5EmptyEnv.cache_get (cacheKey c5Api.cfg []) = some (Payload.plist []) ∧
    (execute c5Api [] ⟨none, none⟩ c5EmptyEnv "GET" false true 0 1).sends = 1 ∧
    (execute c5Api [] ⟨none, none⟩ c5EmptyEnv "GET" false true 0 1).api.cached_result =
      false ∧
    Event.send ∈ (execute c5Api [] ⟨none, none⟩ c5EmptyEnv "GET" false true 0 1).trace := by
  refine ⟨rfl, rfl, rfl, ?_⟩
  decide

/-- C9: on a loop iteration answering 420/429 while rate-limit waiting is
enabled and the updated tracked remaining count equals 0, the loop
re-enters via `continue`: the state is updated with the header values but
`retries_performed` is unchanged and no retry sleep is emitted; as a
consequence the number of sends of an `execute` call is not bounded by
`retry_count + 1`, witnessed by a concrete run with `retry_count = 0`
performing 2 sends. -/
theorem c9_continue_skips_budget (cfg : Config) (env : Env) (fuel : Nat)
    (st : LoopState) (r : Resp)
    (hresp : env.responses st.sends = SendResult.ok r)
    (hst : r.status_code = 420 ∨ r.status_code = 429)
    (hw : cfg.wait_on_rate_limit = true)
    (hrem : updatedRemaining st.remaining_calls r = some 0) :
    (execLoop cfg env (fuel + 1) st = execLoop cfg env fuel (stepContinue cfg st r) ∧
      (stepContinue cfg st r).retries_performed = st.retries_performed ∧
      (stepContinue cfg st r).sends = st.sends + 1 ∧
      (stepContinue cfg st r).trace =
        st.trace ++ (gateEvents cfg st ++ authEvents cfg ++ [Event.send]) ∧
      ∀ d, Event.retrySleep d ∉ gateEvents cfg st ++ authEvents cfg ++ [Event.send]) ∧
    ((execute c9Api [] ⟨none, none⟩ c9Env "GET" false true 100 3).sends = 2 ∧
      c9Api.cfg.retry_count + 1 < 2) := by
  have h2 : ¬ (200 ≤ r.status_code ∧ r.status_code < 300) := by
    rcases hst with h | h <;> rw [h] <;> omega
  have hcl := classify_continue cfg (updatedRemaining st.remaining_calls r) r hst hw hrem
  have hi := iterStep_continue cfg env st r hresp h2 hcl
  refine ⟨⟨by simp [execLoop, hi], rfl, rfl, stepContinue_trace cfg st r, ?_⟩, rfl,
    by decide⟩
  intro d hmem
  rcases List.mem_append.1 hmem with h | h
  · rcases List.mem_append.1 h with h1 | h1
    · exact retrySleep_not_mem_gateEvents cfg st d h1
    · exact retrySleep_not_mem_authEvents cfg d h1
  · simp at h

theorem c9_continue_skips_budget_witness :
    (execLoop c9Cfg c9Env (2 + 1) c9St =
        execLoop c9Cfg c9Env 2 (stepContinue c9Cfg c9St c9Resp429) ∧
      (stepContinue c9Cfg c9St c9Resp429).retries_performed =
        c9St.retries_performed ∧
      (stepContinue c9Cfg c9St c9Resp429).sends = c9St.sends + 1 ∧
      (stepContinue c9Cfg c9St c9Resp429).trace =
        c9St.trace ++ (gateEvents c9Cfg c9St ++ authEvents c9Cfg ++ [Event.send]) ∧
      ∀ d, Event.retrySleep d ∉
        gateEvents c9Cfg c9St ++ authEvents c9Cfg ++ [Event.send]) ∧
    ((execute c9Api [] ⟨none, none⟩ c9Env "GET" false true 100 3).sends = 2 ∧
      c9Api.cfg.retry_count + 1 < 2) :=
  c9_continue_skips_budget c9Cfg c9Env 2 c9St c9Resp429 rfl (Or.inr rfl) rfl rfl

/-- C10 counterexample: the first send receives a 500 response, the second
send raises a transport exception, so `execute` raises the
transport-failure `TweepError` after 2 sends without ever assigning
`api.last_response` — contradicting the claim that every path with at
least one HTTP send assigns the last received response before raising. -/
theorem c10_counterexample :
    (execute c10Api [] ⟨none, none⟩ c10Env "GET" false true 0 5).sends = 2 ∧
    (execute c10Api [] ⟨none, none⟩ c10Env "GET" false true 0 5).outcome =
      Outcome.tweepError "Failed to send request: boom" ∧
    (execute c10Api [] ⟨none, none⟩ c10Env "GET" false true 0 5).api.last_response =
      none ∧
    (execute c10Api [] ⟨none, none⟩ c10Env "GET" false true 0 5).api.cached_result =
      false := by
  exact ⟨rfl, rfl, rfl, rfl⟩

/-- C10 (amended): every `execute` call clears `api.cached_result` at
entry and sets it back to `true` only on a cache hit (the final value is
`true` iff the cache phase hit, in which case no send occurred and
`last_response` is untouched); no other api field is modified (`api.cfg`
is returned unchanged); and on every path that completes the retry loop
with a received response — the `ok`-without-hit, `apiError` and
`RateLimitError` outcomes — `api.last_response` is assigned the final
received response: the one carried by the error outcomes, and on the `ok`
path the very response the loop finished with, whose body the returned
result is parsed from; the transport-failure `TweepError` raise
propagates with `api.last_response` untouched. -/
theorem c10_frame (api : Api) (params : List (String × String)) (ms : MethodState)
    (env : Env) (method : String) (return_cursors use_cache : Bool) (now0 : ℚ)
    (fuel : Nat) :
    (execute api params ms env method return_cursors use_cache now0 fuel).api.cfg =
      api.cfg ∧
    ((execute api params ms env method return_cursors use_cache now0 fuel).api.cached_result =
        true ↔ (cacheAttempt env api.cfg params method use_cache).isSome) ∧
    ((execute api params ms env method return_cursors use_cache now0 fuel).api.cached_result =
        true →
      (execute api params ms env method return_cursors use_cache now0 fuel).api.last_response =
        api.last_response ∧
      (execute api params ms env method return_cursors use_cache now0 fuel).sends = 0) ∧
    (∀ m r c2, (execute api params ms env method return_cursors use_cache now0 fuel).outcome =
        Outcome.apiError m r c2 →
      (execute api params ms env method return_cursors use_cache now0 fuel).api.last_response =
        some r) ∧
    (∀ m r, (execute api params ms env method return_cursors use_cache now0 fuel).outcome =
        Outcome.rateLimitError m r →
      (execute api params ms env method return_cursors use_cache now0 fuel).api.last_response =
        some r) ∧
    (∀ res, (execute api params ms env method return_cursors use_cache now0 fuel).outcome =
        Outcome.ok res →
      (execute api params ms env method return_cursors use_cache now0 fuel).api.cached_result =
        false →
      ∃ r2 st2, execLoop api.cfg env fuel
          (initState ms now0 (cacheTrace api.cfg params method use_cache)) =
          LoopResult.finished r2 st2 ∧
        (execute api params ms env method return_cursors use_cache now0 fuel).api.last_response =
          some r2 ∧
        res = parsedResult env params return_cursors r2) ∧
    (∀ m, (execute api params ms env method return_cursors use_cache now0 fuel).outcome =
        Outcome.tweepError m →
      (execute api params ms env method return_cursors use_cache now0 fuel).api.last_response =
        api.last_response) := by
  cases hcache : cacheAttempt env api.cfg params method use_cache with
  | some v =>
    rw [execute_hit api params ms env method return_cursors use_cache now0 fuel v hcache]
    refine ⟨rfl, by simp [hcache], fun _ => ⟨rfl, rfl⟩, ?_, ?_, ?_, ?_⟩
    · intro m r c2 h
      exact Outcome.noConfusion h
    · intro m r h
      exact Outcome.noConfusion h
    · intro res h hfalse
      simp at hfalse
    · intro m h
      exact Outcome.noConfusion h
  | none =>
    rw [execute_miss api params ms env method return_cursors use_cache now0 fuel hcache]
    cases hloop : execLoop api.cfg env fuel
        (initState ms now0 (cacheTrace api.cfg params method use_cache)) with
    | finished r st =>
      rw [execNetwork_finished env { api with cached_result := false } params method
        return_cursors use_cache (cacheKey api.cfg params) _ fuel r st hloop]
      by_cases hA : r.status_code ≠ 0 ∧ ¬ (200 ≤ r.status_code ∧ r.status_code < 300)
      · by_cases hB : env.is_rate_limit_error_message (errorContent env r).1 = true
        · rw [finishResp_rateLimit env { api with cached_result := false } params
            method return_cursors use_cache (cacheKey api.cfg params) r st
            hA.1 hA.2 hB]
          refine ⟨rfl, by simp [hcache], ?_, ?_, ?_, ?_, ?_⟩
          · intro h
            simp at h
          · intro m r2 c2 h
            exact Outcome.noConfusion h
          · intro m r2 h
            injection h with h1 h2
            subst h2
            rfl
          · intro res h hfalse
            exact Outcome.noConfusion h
          · intro m h
            exact Outcome.noConfusion h
        · have hB2 : env.is_rate_limit_error_message (errorContent env r).1 = false := by
            simpa using hB
          rw [finishResp_apiError env { api with cached_result := false } params
            method return_cursors use_cache (cacheKey api.cfg params) r st
            hA.1 hA.2 hB2]
          refine ⟨rfl, by simp [hcache], ?_, ?_, ?_, ?_, ?_⟩
          · intro h
            simp at h
          · intro m r2 c2 h
            injection h with h1 h2 h3
            subst h2
            rfl
          · intro m r2 h
            exact Outcome.noConfusion h
          · intro res h hfalse
            exact Outcome.noConfusion h
          · intro m h
            exact Outcome.noConfusion h
      · by_cases hC : (usesCache api.cfg method use_cache &&
            (parsedResult env params return_cursors r).truthy) = true
        · rw [finishResp_success_store env { api with cached_result := false } params
            method return_cursors use_cache (cacheKey api.cfg params) r st hA
            (by simpa using (Bool.and_eq_true _ _ ▸ hC).1)
            (by simpa using (Bool.and_eq_true _ _ ▸ hC).2)]
          refine ⟨rfl, by simp [hcache], ?_, ?_, ?_, ?_, ?_⟩
          · intro h
            simp at h
          · intro m r2 c2 h
            exact Outcome.noConfusion h
          · intro m r2 h
            exact Outcome.noConfusion h
          · intro res h hfalse
            injection h with h1
            exact ⟨r, st, rfl, rfl, h1.symm⟩
          · intro m h
            exact Outcome.noConfusion h
        · rw [finishResp_success_nostore env { api with cached_result := false } params
            method return_cursors use_cache (cacheKey api.cfg params) r st hA
            (by simpa using hC)]
          refine ⟨rfl, by simp [hcache], ?_, ?_, ?_, ?_, ?_⟩
          · intro h
            simp at h
          · intro m r2 c2 h
            exact Outcome.noConfusion h
          · intro m r2 h
            exact Outcome.noConfusion h
          · intro res h hfalse
            injection h with h1
            exact ⟨r, st, rfl, rfl, h1.symm⟩
          · intro m h
            exact Outcome.noConfusion h
    | raised m2 st =>
      rw [execNetwork_raised env { api with cached_result := false } params method
        return_cursors use_cache (cacheKey api.cfg params) _ fuel m2 st hloop]
      refine ⟨rfl, by simp [hcache], ?_, ?_, ?_, ?_, ?_⟩
      · intro h
        simp at h
      · intro m r2 c2 h
        exact Outcome.noConfusion h
      · intro m r2 h
        exact Outcome.noConfusion h
      · intro res h hfalse
        exact Outcome.noConfusion h
      · intro m h
        rfl
    | fuelOut st =>
      rw [execNetwork_fuelOut env { api with cached_result := false } params method
        return_cursors use_cache (cacheKey api.cfg params) _ fuel st hloop]
      refine ⟨rfl, by simp [hcache], ?_, ?_, ?_, ?_, ?_⟩
      · intro h
        simp at h
      · intro m r2 c2 h
        exact Outcome.noConfusion h
      · intro m r2 h
        exact Outcome.noConfusion h
      · intro res h hfalse
        exact Outcome.noConfusion h
      · intro m h
        exact Outcome.noConfusion h

end Tweepy
